import Mathlib

/-!
Verification of the brc-tools upload client and observation normalizer.

The definitions below are shallow embeddings of the Python functions that the
repository ships in its documentation and notebooks:

* `send_file_to_server` and `robust_upload`
  (data/schema/generalfile_pipeline_guide.md, lines 56-81 and 235-245);
* `retry_with_backoff` and the `Config` constants
  (docs/PIPELINE-ARCHITECTURE.md, lines 88-108);
* `clean_dataframe_for_json` and `export_data`
  (brc_tools/download/README.md notebook cells, lines 209-231);
* the five-column polars `select` pipeline
  (data/schema/json/data_structure_docs.md, lines 168-179).

Effects are modelled by explicit state passing on a `World` record: the local
filesystem is an association list from path to byte list, the HTTP transport
is a script of responses consumed in order, and the requests issued, the
`time.sleep` calls and the `print` calls are append-only logs.
-/

/-- `str.rfind`-style helper: index of the last occurrence of `c` in `cs`,
`-1` when absent (mirrors Python's `str.rfind`). -/
def py_rfind (cs : List Char) (c : Char) : Int :=
  (cs.enum.filterMap (fun p => if p.2 = c then some ((p.1 : Int)) else none)).foldl max (-1)

/-- `os.path.splitext(p)[1]`: the extension starting at the last dot of the
basename, empty when the dot is missing or only leading dots precede it. -/
def os_path_splitext_ext (p : String) : String :=
  let cs := p.data
  let sep := py_rfind cs '/'
  let dot := py_rfind cs '.'
  if (decide (sep < dot)) &&
      (List.range cs.length).any
        (fun j => decide (sep < (j : Int)) && decide ((j : Int) < dot) && (cs.getD j '.' != '.'))
  then String.mk (cs.drop dot.toNat)
  else ""

/-- `os.path.basename(p)`: everything after the last `/`. -/
def os_path_basename (p : String) : String :=
  let cs := p.data
  String.mk (cs.drop (py_rfind cs '/' + 1).toNat)

/-- The `content_types` dict literal of `send_file_to_server`
(generalfile_pipeline_guide.md lines 61-67).  Note `.jpeg` is absent. -/
def content_types : List (String × String) :=
  [(".json", "application/json"),
   (".md", "text/markdown"),
   (".pdf", "application/pdf"),
   (".png", "image/png"),
   (".jpg", "image/jpeg")]

/-- Python `dict.get(k, default)` on an association-list model of a dict. -/
def dict_get (d : List (String × String)) (k : String) (dflt : String) : String :=
  match d.find? (fun kv => kv.1 == k) with
  | some kv => kv.2
  | none => dflt

/-- `content_types.get(os.path.splitext(fpath)[1], 'application/octet-stream')`:
the multipart content type chosen by `send_file_to_server` for `fpath`. -/
def upload_content_type (fpath : String) : String :=
  dict_get content_types (os_path_splitext_ext fpath) "application/octet-stream"

/-- One scripted behaviour of the HTTP transport for one `requests.post` call:
either raise a `requests.RequestException` or return a response with a
status code and a body text. -/
inductive TResp where
  | exc
  | status (code : Nat) (text : String)
deriving DecidableEq

/-- The Python exception classes that the embedded code can raise. -/
inductive PyExc where
  | fileNotFoundError
  | requestException
deriving DecidableEq

/-- One outgoing HTTP request, as `requests.post(endpoint, files=..., headers=...,
timeout=60)` builds it: multipart field name, original basename, file bytes,
content type, headers, timeout. -/
structure Request where
  method : String
  url : String
  fieldName : String
  fileName : String
  fileBytes : List Nat
  contentType : String
  headers : List (String × String)
  timeout : Nat
deriving DecidableEq

/-- The `print` calls the upload code makes (success line, failure line, and
`robust_upload`'s final give-up line). -/
inductive PrintEvent where
  | uploaded (name : String)
  | uploadFailed (text : String)
  | failedAfter (attempts : Nat)
deriving DecidableEq

/-- Explicit state for the effectful upload code: filesystem, remaining
transport script, and logs of requests, sleeps (in seconds) and prints. -/
structure World where
  fs : List (String × List Nat)
  script : List TResp
  requests : List Request
  sleeps : List Nat
  prints : List PrintEvent
deriving DecidableEq

/-- A fresh world with the given filesystem and transport script and empty logs. -/
def initWorld (fs : List (String × List Nat)) (script : List TResp) : World :=
  { fs := fs, script := script, requests := [], sleeps := [], prints := [] }

/-- `send_file_to_server(server_address, fpath, file_type, API_KEY)`
(generalfile_pipeline_guide.md lines 56-81).  Builds the endpoint
`{server_address}/api/data/upload/{file_type}` (braces here denote Python
f-string interpolation), picks the content type from the extension, opens the
file (raising `FileNotFoundError` when absent, before any network call),
posts it as multipart field `file` with header `x-api-key`, and then only
prints the outcome: a non-200 status raises nothing.  The Python function
returns `None`; we return the response status code to make it observable. -/
def send_file_to_server (server_address fpath file_type API_KEY : String) (w : World) :
    Except PyExc Nat × World :=
  let endpoint := server_address ++ "/api/data/upload/" ++ file_type
  let content_type := upload_content_type fpath
  match w.fs.find? (fun e => e.1 == fpath) with
  | none => (.error .fileNotFoundError, w)
  | some entry =>
    let req : Request :=
      { method := "POST", url := endpoint, fieldName := "file",
        fileName := os_path_basename fpath, fileBytes := entry.2,
        contentType := content_type,
        headers := [("x-api-key", API_KEY)], timeout := 60 }
    match w.script with
    | [] => (.error .requestException, { w with requests := w.requests ++ [req], script := [] })
    | r :: rest =>
      let w2 := { w with requests := w.requests ++ [req], script := rest }
      match r with
      | .exc => (.error .requestException, w2)
      | .status code text =>
        if code = 200 then
          (.ok code, { w2 with prints := w2.prints ++ [.uploaded (os_path_basename fpath)] })
        else
          (.ok code, { w2 with prints := w2.prints ++ [.uploadFailed text] })

/-- The loop body of `robust_upload` (generalfile_pipeline_guide.md lines
235-245): iterate over the `range(max_retries)` attempt indices; a normal
return from `send_file_to_server` returns `True` at once; only
`requests.RequestException` is caught, and on the last index the function
prints and returns `False`, otherwise it sleeps `2 ** attempt` seconds.
Any other exception (e.g. `FileNotFoundError`) propagates.  Falling off the
loop (only possible for `max_retries = 0`) returns Python `None`. -/
def robust_upload_go (server_url file_path file_type API_KEY : String)
    (max_retries : Nat) : List Nat → World → Except PyExc (Option Bool) × World
  | [], w => (.ok none, w)
  | attempt :: rest, w =>
    match send_file_to_server server_url file_path file_type API_KEY w with
    | (.ok _, w2) => (.ok (some true), w2)
    | (.error .requestException, w2) =>
      if attempt = max_retries - 1 then
        (.ok (some false), { w2 with prints := w2.prints ++ [.failedAfter max_retries] })
      else
        robust_upload_go server_url file_path file_type API_KEY max_retries rest
          { w2 with sleeps := w2.sleeps ++ [2 ^ attempt] }
    | (.error e, w2) => (.error e, w2)

/-- `robust_upload(file_path, file_type)` with `max_retries = 3`. -/
def robust_upload (server_url file_path file_type API_KEY : String) (w : World) :
    Except PyExc (Option Bool) × World :=
  robust_upload_go server_url file_path file_type API_KEY 3 (List.range 3) w

/-- `retry_with_backoff(func, max_attempts=3)` (docs/PIPELINE-ARCHITECTURE.md
lines 101-108).  `func` is modelled as a map from the 0-based call index to
its outcome; the second component of the result is the list of `time.sleep`
durations, in seconds and in order.  Only `requests.RequestException` is
retried; on the last attempt index it re-raises. -/
def retry_go (func : Nat → Except PyExc Nat) (max_attempts : Nat) :
    List Nat → List Nat → Except PyExc (Option Nat) × List Nat
  | [], sleeps => (.ok none, sleeps)
  | attempt :: rest, sleeps =>
    match func attempt with
    | .ok v => (.ok (some v), sleeps)
    | .error .requestException =>
      if attempt = max_attempts - 1 then (.error .requestException, sleeps)
      else retry_go func max_attempts rest (sleeps ++ [2 ^ attempt])
    | .error e => (.error e, sleeps)

/-- `retry_with_backoff` entry point: loop over `range(max_attempts)`. -/
def retry_with_backoff (func : Nat → Except PyExc Nat) (max_attempts : Nat := 3) :
    Except PyExc (Option Nat) × List Nat :=
  retry_go func max_attempts (List.range max_attempts) []

namespace Config

/-- `Config.RETRY_ATTEMPTS = 3` (docs/PIPELINE-ARCHITECTURE.md line 88). -/
def RETRY_ATTEMPTS : Nat := 3

/-- `Config.RETRY_DELAY = 2` seconds (docs/PIPELINE-ARCHITECTURE.md line 89). -/
def RETRY_DELAY : Nat := 2

/-- `Config.TIMEOUT = 30` seconds (docs/PIPELINE-ARCHITECTURE.md line 90). -/
def TIMEOUT : Nat := 30

end Config

/-! ## Observation normalizer: dataframe model

The tabular input of `clean_dataframe_for_json` (brc_tools/download/README.md
notebook, lines 209-221) and of the polars `select` pipeline
(data/schema/json/data_structure_docs.md, lines 168-179) is modelled as a
list of named, dtype-tagged columns.  Cell values are `PyVal`: the float NaN
sentinel, Python `None`, a number (machine floats are modelled as integers —
no claim depends on decimal arithmetic), or a string. -/

/-- One dataframe cell. -/
inductive PyVal where
  | nan
  | null
  | num (i : Int)
  | str (s : String)
deriving DecidableEq

/-- Pandas column dtype as far as `select_dtypes(include=['object'])` can
distinguish it: `object` columns get the `.str` treatment, others do not. -/
inductive Dtype where
  | numeric
  | object
deriving DecidableEq

/-- One named dataframe column. -/
structure Col where
  name : String
  dtype : Dtype
  cells : List PyVal
deriving DecidableEq

/-- A dataframe: an ordered list of columns. -/
structure DataFrame where
  cols : List Col
deriving DecidableEq

/-- `pd.notnull`: false exactly on the NaN and `None` sentinels. -/
def pd_notnull : PyVal → Bool
  | .nan => false
  | .null => false
  | _ => true

/-- One cell of `df.where(pd.notnull(df), None)` under pandas (1.3 and
later) block semantics, which depend on the column's dtype: in a float
(`numeric`) column the `other=None` fill is standardized to the block's
fill value `np.nan`, so a missing value remains NaN and the dtype is
unchanged; in an `object` column the missing values become `None`. -/
def whereNotnullNone (dtype : Dtype) (v : PyVal) : PyVal :=
  if pd_notnull v then v
  else
    match dtype with
    | Dtype.numeric => .nan
    | Dtype.object => .null

/-- Python `s.strip('"')`: remove every leading and trailing `"` character. -/
def str_strip_quotes (s : String) : String :=
  String.mk (((s.data.dropWhile (fun c => c = '"')).reverse.dropWhile
    (fun c => c = '"')).reverse)

/-- One cell of `df[col].str.strip('"')` on an object column: strings are
stripped; the pandas `.str` accessor turns every non-string element
(including `None`) into NaN. -/
def str_strip_cell : PyVal → PyVal
  | .str s => .str (str_strip_quotes s)
  | _ => .nan

/-- `clean_dataframe_for_json(df)` (brc_tools/download/README.md lines
209-221): the polars-to-pandas conversion is the identity on this model;
then `df.where(pd.notnull(df), None)` — which, despite the comment in the
code, leaves a float column's NaN in place under pandas block semantics —
and then every `object`-dtype column is passed through `.str.strip('"')`. -/
def clean_dataframe_for_json (df : DataFrame) : DataFrame :=
  let df2 : DataFrame := ⟨df.cols.map (fun c =>
    { c with cells := c.cells.map (whereNotnullNone c.dtype) })⟩
  ⟨df2.cols.map (fun c =>
    if c.dtype = Dtype.object then { c with cells := c.cells.map str_strip_cell } else c)⟩

/-- Row count: length of the first column (well-formed frames have all
columns of equal length). -/
def df_nrows (df : DataFrame) : Nat :=
  match df.cols with
  | [] => 0
  | c :: _ => c.cells.length

/-- One serialized record: field names paired with cell values, in column
order, as produced by `df.to_dict(orient='records')`. -/
abbrev Record := List (String × PyVal)

/-- `df.to_dict(orient='records')`: one record per row, fields in column
order. -/
def to_records (df : DataFrame) : List Record :=
  (List.range (df_nrows df)).map (fun i => df.cols.map (fun c => (c.name, c.cells.getD i .nan)))

/-- The five canonical columns selected by the map-obs pipeline
(data_structure_docs.md lines 171-177). -/
def canonical_columns : List String :=
  ["stid", "variable", "value", "date_time", "units"]

/-- First column with the given name, if any. -/
def lookupCol (df : DataFrame) (n : String) : Option Col :=
  df.cols.find? (fun c => c.name == n)

/-- The schema-error class raised when a required column is absent (the
spec's `SchemaError` taxonomy entry; polars raises its column-not-found
error class there).  Carries the missing column's name. -/
structure SchemaError where
  missing : String
deriving DecidableEq

/-- `df.select([pl.col(n) for n in names])` resolution: each requested name
in order, failing on the first absent one. -/
def selectCols (df : DataFrame) : List String → Except SchemaError (List Col)
  | [] => .ok []
  | n :: ns =>
    match lookupCol df n with
    | Option.none => .error ⟨n⟩
    | some c => (selectCols df ns).map (fun cs => c :: cs)

/-- The polars `select` of the map-obs pipeline: exactly the requested
columns, in order, or a schema error. -/
def df_select (df : DataFrame) (names : List String) : Except SchemaError DataFrame :=
  (selectCols df names).map DataFrame.mk

/-! ## JSON serialization

`export_data` serializes `df.to_dict(orient='records')` with `json.dump(...,
default=str)`.  The serializer below models `json.dump` on the record-list
shape: `null` prints as `null`, NaN prints as the (invalid-JSON) literal
`NaN` (the stdlib default `allow_nan=True`), integers in decimal, strings
quoted with `"` and `\` and control characters escaped (`\u00xx`; non-ASCII
characters are left literal, as with `ensure_ascii=False` — the escaping
choice for them is invisible to a JSON consumer). -/

/-- Lowercase hex digit. -/
def hexDigitChar (n : Nat) : Char :=
  if n < 10 then Char.ofNat ('0'.toNat + n) else Char.ofNat ('a'.toNat + n - 10)

/-- Four-digit lowercase hex rendering of `n < 0x10000`. -/
def toHex4 (n : Nat) : List Char :=
  [hexDigitChar (n / 4096 % 16), hexDigitChar (n / 256 % 16),
   hexDigitChar (n / 16 % 16), hexDigitChar (n % 16)]

/-- JSON escape of one character. -/
def escapeChar (c : Char) : List Char :=
  if c = '"' then ['\\', '"']
  else if c = '\\' then ['\\', '\\']
  else if c.toNat < 32 then '\\' :: 'u' :: toHex4 c.toNat
  else [c]

/-- JSON escape of a string body. -/
def escapeString (s : String) : List Char :=
  (s.data.map escapeChar).flatten

/-- A JSON string literal: quoted escaped body. -/
def dumpString (s : String) : List Char :=
  '"' :: escapeString s ++ ['"']

/-- Decimal digits of a natural number. -/
def printNatChars (n : Nat) : List Char :=
  if n = 0 then ['0'] else ((Nat.digits 10 n).map Nat.digitChar).reverse

/-- Decimal rendering of an integer, `-` sign for negatives. -/
def printIntChars (i : Int) : List Char :=
  if i < 0 then '-' :: printNatChars i.natAbs else printNatChars i.natAbs

/-- JSON rendering of one cell value. -/
def dumpVal : PyVal → List Char
  | .nan => ['N', 'a', 'N']
  | .null => ['n', 'u', 'l', 'l']
  | .num i => printIntChars i
  | .str s => dumpString s

/-- JSON rendering of one `key: value` member (stdlib separator `': '`). -/
def dumpPair (p : String × PyVal) : List Char :=
  dumpString p.1 ++ [':', ' '] ++ dumpVal p.2

/-- Comma-space separated join (stdlib item separator `', '`). -/
def joinComma : List (List Char) → List Char
  | [] => []
  | [x] => x
  | x :: y :: rest => x ++ ',' :: ' ' :: joinComma (y :: rest)

/-- JSON rendering of one record object. -/
def dumpRecord (r : Record) : List Char :=
  '\x7b' :: joinComma (r.map dumpPair) ++ ['\x7d']

/-- JSON rendering of a record array, as characters. -/
def dumpRecordsChars (rs : List Record) : List Char :=
  '[' :: joinComma (rs.map dumpRecord) ++ [']']

/-- `json.dump(df.to_dict(orient='records'), f, default=str)` as a string
(the spec's `write_json` serialization step). -/
def dumpRecords (rs : List Record) : String :=
  String.mk (dumpRecordsChars rs)

/-- `export_data(df, filename)` (brc_tools/download/README.md lines
223-231): clean the frame, then serialize the record list.  The file write
is modelled by returning the written text. -/
def export_data (df : DataFrame) : String :=
  dumpRecords (to_records (clean_dataframe_for_json df))

/-- The map-obs processing pipeline (data_structure_docs.md lines 168-179):
select exactly the five canonical columns (failing on a missing one, in
which case nothing is written), then serialize the records to JSON.  The
intermediate `validate_schema` call lives in a module outside this
repository snapshot and cannot reject a frame the select accepted here. -/
def map_obs_pipeline (df : DataFrame) : Except SchemaError String :=
  (df_select df canonical_columns).map (fun d => dumpRecords (to_records d))

/-! ## JSON parsing

`json.loads` restricted to the grammar the serializer emits: an array of
flat objects whose values are `null`, integers, or strings (strict JSON — in
particular the invalid literal `NaN` does not parse).  Whitespace is skipped
at token boundaries.  The two list loops are fuel-indexed; the top-level
entry point supplies the input length as fuel. -/

/-- JSON insignificant whitespace. -/
def isWsChar (c : Char) : Bool :=
  c = ' ' || c = '\n' || c = '\t' || c = '\r'

/-- Skip insignificant whitespace. -/
def skipWs (cs : List Char) : List Char :=
  cs.dropWhile isWsChar

/-- Value of one hex digit. -/
def hexCharVal (c : Char) : Option Nat :=
  if '0' ≤ c ∧ c ≤ '9' then some (c.toNat - '0'.toNat)
  else if 'a' ≤ c ∧ c ≤ 'f' then some (c.toNat - 'a'.toNat + 10)
  else if 'A' ≤ c ∧ c ≤ 'F' then some (c.toNat - 'A'.toNat + 10)
  else none

/-- Parse a string body up to the closing quote, decoding `\"`, `\\` and
`\uXXXX` escapes. -/
def parseStringBody : List Char → Option (List Char × List Char)
  | [] => Option.none
  | c :: rest =>
    if c = '"' then some ([], rest)
    else if c = '\\' then
      match rest with
      | [] => Option.none
      | e :: rest2 =>
        if e = '"' then (parseStringBody rest2).map (fun p => ('"' :: p.1, p.2))
        else if e = '\\' then (parseStringBody rest2).map (fun p => ('\\' :: p.1, p.2))
        else if e = 'u' then
          match rest2 with
          | a :: b :: c2 :: d :: rest3 =>
            match hexCharVal a, hexCharVal b, hexCharVal c2, hexCharVal d with
            | some va, some vb, some vc, some vd =>
              (parseStringBody rest3).map
                (fun p => (Char.ofNat (va * 4096 + vb * 256 + vc * 16 + vd) :: p.1, p.2))
            | _, _, _, _ => Option.none
          | _ => Option.none
        else Option.none
    else (parseStringBody rest).map (fun p => (c :: p.1, p.2))

/-- Numeric value of a decimal digit character. -/
def charDigitVal (c : Char) : Nat := c.toNat - '0'.toNat

/-- Value of a big-endian decimal digit string. -/
def digitsVal (ds : List Char) : Nat := Nat.ofDigits 10 ((ds.map charDigitVal).reverse)

/-- Parse a nonempty run of decimal digits. -/
def parseNat (cs : List Char) : Option (Nat × List Char) :=
  let ds := cs.takeWhile Char.isDigit
  if ds.isEmpty then Option.none else some (digitsVal ds, cs.dropWhile Char.isDigit)

/-- Parse one JSON value of the record grammar: `null`, a string, or an
(optionally negated) integer. -/
def parseVal (cs : List Char) : Option (PyVal × List Char) :=
  match skipWs cs with
  | [] => Option.none
  | c :: rest =>
    if c = 'n' then
      match rest with
      | 'u' :: 'l' :: 'l' :: rest2 => some (.null, rest2)
      | _ => Option.none
    else if c = '"' then (parseStringBody rest).map (fun p => (.str (String.mk p.1), p.2))
    else if c = '-' then (parseNat rest).map (fun p => (.num (-(p.1 : Int)), p.2))
    else (parseNat (c :: rest)).map (fun p => (.num ((p.1 : Int)), p.2))

/-- Parse the members of a nonempty object, after the opening brace. -/
def parsePairs : Nat → List Char → Option (Record × List Char)
  | 0, _ => Option.none
  | fuel + 1, cs =>
    match skipWs cs with
    | [] => Option.none
    | c :: rest =>
      if c = '"' then
        match parseStringBody rest with
        | Option.none => Option.none
        | some (k, cs1) =>
          match skipWs cs1 with
          | [] => Option.none
          | c1 :: cs2 =>
            if c1 = ':' then
              match parseVal cs2 with
              | Option.none => Option.none
              | some (v, cs3) =>
                match skipWs cs3 with
                | [] => Option.none
                | c2 :: cs4 =>
                  if c2 = ',' then
                    (parsePairs fuel cs4).map (fun p => ((String.mk k, v) :: p.1, p.2))
                  else if c2 = '\x7d' then some ([(String.mk k, v)], cs4)
                  else Option.none
            else Option.none
      else Option.none

/-- Parse one object. -/
def parseRecord (fuel : Nat) (cs : List Char) : Option (Record × List Char) :=
  match skipWs cs with
  | [] => Option.none
  | c :: rest =>
    if c = '\x7b' then
      match skipWs rest with
      | [] => parsePairs fuel rest
      | c1 :: rest2 => if c1 = '\x7d' then some ([], rest2) else parsePairs fuel rest
    else Option.none

/-- Parse the elements of a nonempty array, after the opening bracket. -/
def parseItems : Nat → List Char → Option (List Record × List Char)
  | 0, _ => Option.none
  | fuel + 1, cs =>
    match parseRecord fuel cs with
    | Option.none => Option.none
    | some (r, cs1) =>
      match skipWs cs1 with
      | [] => Option.none
      | c :: cs2 =>
        if c = ',' then (parseItems fuel cs2).map (fun p => (r :: p.1, p.2))
        else if c = ']' then some ([r], cs2)
        else Option.none

/-- `json.loads` on a serialized record array: the whole input must be one
array of objects followed only by whitespace. -/
def json_loads_records (s : String) : Option (List Record) :=
  let cs := s.data
  match skipWs cs with
  | [] => Option.none
  | c :: rest =>
    if c = '[' then
      match skipWs rest with
      | [] => Option.none
      | c1 :: rest2 =>
        if c1 = ']' then (if skipWs rest2 = [] then some [] else Option.none)
        else
          match parseItems (cs.length + 1) rest with
          | some (rs, rest3) => if skipWs rest3 = [] then some rs else Option.none
          | Option.none => Option.none
    else Option.none

/-- Predicate on the remaining input: it does not begin with a character
satisfying `p` (used to delimit digit runs). -/
def stopsAt (p : Char → Bool) : List Char → Prop
  | [] => True
  | c :: _ => p c = false

/-- Fuel measure of a record list for the array-items parser: one unit per
record plus one per member. -/
def recordsMeasure : List Record → Nat
  | [] => 0
  | r :: rs => r.length + 1 + recordsMeasure rs

/-- A concrete two-row frame whose numeric `value` column has a NaN sentinel
in its first row (the failing input for claim C1). -/
def dfC1 : DataFrame :=
  ⟨[{ name := "stid", dtype := Dtype.object, cells := [.str "UBCSP", .str "KVEL"] },
    { name := "value", dtype := Dtype.numeric, cells := [.nan, .num 51] }]⟩

/-- A concrete frame carrying the five canonical columns plus one extra
column (witness input). -/
def dfC7ok : DataFrame :=
  ⟨[{ name := "stid", dtype := Dtype.object, cells := [.str "UBCSP"] },
    { name := "variable", dtype := Dtype.object, cells := [.str "ozone_concentration"] },
    { name := "value", dtype := Dtype.numeric, cells := [.num 51] },
    { name := "date_time", dtype := Dtype.object, cells := [.str "2025-07-29T23:15:00.000Z"] },
    { name := "units", dtype := Dtype.object, cells := [.str "ppb"] },
    { name := "extra", dtype := Dtype.numeric, cells := [.num 7] }]⟩

/-- A concrete frame missing most canonical columns (witness input). -/
def dfC7bad : DataFrame :=
  ⟨[{ name := "stid", dtype := Dtype.object, cells := [.str "UBCSP"] }]⟩

/-- A concrete two-record observation list (witness input). -/
def rsC8 : List Record :=
  [[("stid", .str "UBCSP"), ("variable", .str "ozone_concentration"),
    ("value", .num 51), ("date_time", .str "2025-07-29T23:15:00.000Z"),
    ("units", .str "ppb")],
   [("stid", .str "KVEL"), ("variable", .str "air_temp"),
    ("value", .null), ("date_time", .str "2025-07-29T23:15:00.000Z"),
    ("units", .str "Celsius")]]

/-! ## Helper lemmas for the upload client -/

/-- When every attempt raises `requests.RequestException`, the retry loop over
the attempt indices `range' s k` (with `s + k = max_attempts`) re-raises on the
last index after sleeping `2 ^ attempt` seconds between attempts. -/
theorem retry_go_all_fail (func : Nat → Except PyExc Nat) (maxA : Nat) :
    ∀ (k s : Nat) (sleeps : List Nat), s + k = maxA → 1 ≤ k →
      (∀ i, i < maxA → func i = .error .requestException) →
      retry_go func maxA (List.range' s k) sleeps =
        (.error .requestException, sleeps ++ (List.range' s (k - 1)).map (2 ^ ·)) := by
  intro k
  induction k with
  | zero => intro s sleeps _ hk _; omega
  | succ n ih =>
    intro s sleeps hsum _ hfail
    rw [List.range'_succ s n 1]
    simp only [retry_go, hfail s (by omega)]
    by_cases hlast : s = maxA - 1
    · have hn : n = 0 := by omega
      subst hn
      simp [hlast]
    · have hn : 1 ≤ n := by omega
      rw [if_neg hlast, ih (s + 1) (sleeps ++ [2 ^ s]) (by omega) hn hfail]
      obtain ⟨m, rfl⟩ : ∃ m, n = m + 1 := ⟨n - 1, by omega⟩
      have h2 : m + 1 + 1 - 1 = m + 1 := by omega
      rw [h2, List.range'_succ s m 1]
      simp

/-- `dict.get` on the five-entry `content_types` dict, characterized as an
if-chain over the extension.  `.jpeg` is not a key, so it falls to the
`application/octet-stream` default. -/
theorem dict_get_content_types (e : String) :
    dict_get content_types e "application/octet-stream" =
      (if e = ".json" then "application/json"
       else if e = ".md" then "text/markdown"
       else if e = ".pdf" then "application/pdf"
       else if e = ".png" then "image/png"
       else if e = ".jpg" then "image/jpeg"
       else "application/octet-stream") := by
  have flip : ∀ a b : String, ¬b = a → (a == b) = false := fun a b h =>
    beq_eq_false_iff_ne.mpr (fun hh => h hh.symm)
  by_cases h1 : e = ".json"
  · subst h1; decide
  · rw [if_neg h1]
    by_cases h2 : e = ".md"
    · subst h2; decide
    · rw [if_neg h2]
      by_cases h3 : e = ".pdf"
      · subst h3; decide
      · rw [if_neg h3]
        by_cases h4 : e = ".png"
        · subst h4; decide
        · rw [if_neg h4]
          by_cases h5 : e = ".jpg"
          · subst h5; decide
          · rw [if_neg h5]
            simp [dict_get, content_types, List.find?, flip _ _ h1, flip _ _ h2,
              flip _ _ h3, flip _ _ h4, flip _ _ h5]

/-! ## Claims about the upload client -/

/-- Claim C2 counterexample: against a transport answering HTTP 500, 500, 200,
`robust_upload` does NOT retry: `send_file_to_server` returns normally on a
500 (it only prints), so the loop returns `True` after a single request with
no backoff sleep — not success with `attempts_used == 3` after two sleeps. -/
theorem C2_counterexample :
    let r := robust_upload "https://basinwx.com" "data/obs.json" "map-obs" "key64"
      (initWorld [("data/obs.json", [7, 8])]
        [.status 500 "server error", .status 500 "server error", .status 200 "ok"])
    r.1 = .ok (some true) ∧ r.2.requests.length = 1 ∧ r.2.sleeps = [] ∧ (1 : Nat) ≠ 3 :=
  ⟨rfl, rfl, rfl, by decide⟩

/-- Claim C2 (amended): retries happen only when the transport raises
`requests.RequestException` (a network-level error); a 5xx response is not
retried.  With raised exceptions on the first two attempts and HTTP 200 on
the third, `robust_upload` returns `True` with three requests issued, having
slept 1 then 2 seconds (`2 ** attempt` for attempt indices 0 and 1). -/
theorem C2_amended_retries_only_on_raised_exceptions
    (server fpath ftype key t : String) (bytes : List Nat)
    (fs : List (String × List Nat)) (rest : List TResp)
    (hfs : fs.find? (fun e => e.1 == fpath) = some (fpath, bytes)) :
    let r := robust_upload server fpath ftype key
      (initWorld fs ([.exc, .exc, .status 200 t] ++ rest))
    r.1 = .ok (some true) ∧ r.2.requests.length = 3 ∧ r.2.sleeps = [1, 2] := by
  simp only [robust_upload, show List.range 3 = [0, 1, 2] from rfl]
  simp [robust_upload_go, send_file_to_server, hfs, initWorld]

/-- Claim C2 witness: the amended statement at a concrete filesystem,
transport script and upload arguments. -/
theorem C2_witness :
    let r := robust_upload "https://basinwx.com" "data/obs.json" "map-obs" "key64"
      (initWorld [("data/obs.json", [7, 8])] ([.exc, .exc, .status 200 "ok"] ++ []))
    r.1 = .ok (some true) ∧ r.2.requests.length = 3 ∧ r.2.sleeps = [1, 2] :=
  C2_amended_retries_only_on_raised_exceptions "https://basinwx.com" "data/obs.json"
    "map-obs" "key64" "ok" [7, 8] [("data/obs.json", [7, 8])] [] (by decide)

/-- Claim C3 counterexample: on a first response of HTTP 404, `robust_upload`
does return after one attempt with no retry, but it returns `True` (success),
not a failure result: `send_file_to_server` raises nothing on a 404 and only
prints the failure. -/
theorem C3_counterexample :
    let r := robust_upload "https://basinwx.com" "data/obs.json" "map-obs" "key64"
      (initWorld [("data/obs.json", [7, 8])] [.status 404 "Not Found"])
    r.1 = .ok (some true) ∧ (some true : Option Bool) ≠ some false ∧
      r.2.requests.length = 1 :=
  ⟨rfl, by decide, rfl⟩

/-- Claim C3 (amended): a first response of 404 causes no retry and no sleep,
and exactly one request is issued, but the call returns `True` (success);
the failure is only printed (`Upload failed: <response text>`). -/
theorem C3_amended_non_2xx_prints_and_returns_true
    (server fpath ftype key t : String) (bytes : List Nat)
    (fs : List (String × List Nat)) (rest : List TResp)
    (hfs : fs.find? (fun e => e.1 == fpath) = some (fpath, bytes)) :
    let r := robust_upload server fpath ftype key (initWorld fs (.status 404 t :: rest))
    r.1 = .ok (some true) ∧ r.2.requests.length = 1 ∧ r.2.sleeps = [] ∧
      r.2.prints = [.uploadFailed t] := by
  simp only [robust_upload, show List.range 3 = [0, 1, 2] from rfl]
  simp [robust_upload_go, send_file_to_server, hfs, initWorld]

/-- Claim C3 witness: the amended statement at a concrete input. -/
theorem C3_witness :
    let r := robust_upload "https://basinwx.com" "data/obs.json" "map-obs" "key64"
      (initWorld [("data/obs.json", [7, 8])] (.status 404 "Not Found" :: []))
    r.1 = .ok (some true) ∧ r.2.requests.length = 1 ∧ r.2.sleeps = [] ∧
      r.2.prints = [.uploadFailed "Not Found"] :=
  C3_amended_non_2xx_prints_and_returns_true "https://basinwx.com" "data/obs.json"
    "map-obs" "key64" "Not Found" [7, 8] [("data/obs.json", [7, 8])] [] (by decide)

/-- Claim C4 counterexample: `retry_with_backoff` with every call raising
sleeps 1 second before attempt 2 and 2 seconds before attempt 3
(`time.sleep(2 ** attempt)`), not `base_delay * 2^(n-2)` with
`base_delay = Config.RETRY_DELAY = 2` (which would be 2 then 4 seconds);
the `Config.RETRY_DELAY` constant is not used by the loop at all. -/
theorem C4_counterexample :
    retry_with_backoff (fun _ => .error .requestException) 3 =
      (.error .requestException, [1, 2]) ∧
    Config.RETRY_DELAY = 2 ∧
    ([1, 2] : List Nat) ≠ [Config.RETRY_DELAY, 2 * Config.RETRY_DELAY] :=
  ⟨rfl, rfl, by decide⟩

/-- Claim C4 (amended): the delay slept before retry attempt `n` (n ≥ 2) is
`2^(n-2)` seconds — a base delay of 1 second, not of `base_delay = 2` —
so attempt 2 waits 1 second and attempt 3 waits 2 seconds, with
`max_attempts` defaulting to 3. -/
theorem C4_amended_backoff_base_one_second (func : Nat → Except PyExc Nat) (maxA : Nat)
    (h1 : 1 ≤ maxA)
    (hfail : ∀ i, i < maxA → func i = .error .requestException) :
    retry_with_backoff func maxA =
      (.error .requestException, (List.range (maxA - 1)).map (2 ^ ·)) ∧
    (∀ n, 2 ≤ n → n ≤ maxA →
      ((List.range (maxA - 1)).map (2 ^ ·)).getD (n - 2) 0 = 2 ^ (n - 2)) := by
  constructor
  · rw [retry_with_backoff, List.range_eq_range' maxA,
      retry_go_all_fail func maxA maxA 0 [] (by omega) h1 hfail,
      List.range_eq_range' (maxA - 1)]
    simp
  · intro n h2 hn
    have hlt : n - 2 < maxA - 1 := by omega
    simp [List.getD_eq_getElem?_getD, List.getElem?_map, List.getElem?_range hlt]

/-- Claim C4 witness: the amended statement at `max_attempts = 3` and an
always-raising transport. -/
theorem C4_witness :
    retry_with_backoff (fun _ => .error .requestException) 3 =
      (.error .requestException, (List.range 2).map (2 ^ ·)) ∧
    (∀ n, 2 ≤ n → n ≤ 3 →
      ((List.range 2).map (2 ^ ·)).getD (n - 2) 0 = 2 ^ (n - 2)) :=
  C4_amended_backoff_base_one_second (fun _ => .error .requestException) 3
    (by decide) (fun _ _ => rfl)

/-- Claim C5 counterexample: on a nonexistent path, `send_file_to_server`
raises `FileNotFoundError` instead of returning a failure result, and
`robust_upload` does not catch it (only `requests.RequestException` is
caught), so the call throws — though indeed no network request is made.
Moreover an empty API key is not validated: the request is still sent, with
an empty `x-api-key` header. -/
theorem C5_counterexample :
    robust_upload "https://basinwx.com" "missing.json" "map-obs" "key64" (initWorld [] [])
        = (.error .fileNotFoundError, initWorld [] []) ∧
    (robust_upload "https://basinwx.com" "missing.json" "map-obs" "key64"
        (initWorld [] [])).2.requests = [] ∧
    (send_file_to_server "https://basinwx.com" "obs.json" "map-obs" ""
        (initWorld [("obs.json", [7])] [.status 200 "ok"])).2.requests.map Request.headers
        = [[("x-api-key", "")]] :=
  ⟨rfl, rfl, rfl⟩

/-- Claim C5 (amended): when the local file does not exist, the call raises
`FileNotFoundError` before any network request (the world, in particular the
request log, is unchanged), and `robust_upload` propagates the exception
rather than returning a failure result; an empty API key is not checked —
the request is sent carrying the header `x-api-key: ""`. -/
theorem C5_amended_missing_file_raises_before_network
    (server fpath ftype key : String) (w : World)
    (hmiss : w.fs.find? (fun e => e.1 == fpath) = none) :
    send_file_to_server server fpath ftype key w = (.error .fileNotFoundError, w) ∧
    robust_upload server fpath ftype key w = (.error .fileNotFoundError, w) ∧
    ∀ (fs2 : List (String × List Nat)) (bytes : List Nat) (script : List TResp),
      fs2.find? (fun e => e.1 == fpath) = some (fpath, bytes) →
      (send_file_to_server server fpath ftype "" (initWorld fs2 script)).2.requests.map
          Request.headers = [[("x-api-key", "")]] := by
  refine ⟨?_, ?_, ?_⟩
  · simp [send_file_to_server, hmiss]
  · simp [robust_upload, show List.range 3 = [0, 1, 2] from rfl,
      robust_upload_go, send_file_to_server, hmiss]
  · intro fs2 bytes script hfs
    cases script with
    | nil => simp [send_file_to_server, hfs, initWorld]
    | cons r rest =>
      cases r with
      | exc => simp [send_file_to_server, hfs, initWorld]
      | status code text =>
        by_cases h : code = 200 <;> simp [send_file_to_server, hfs, initWorld, h]

/-- Claim C5 witness: the amended statement at a concrete empty filesystem,
then its empty-key part at a concrete one-file filesystem. -/
theorem C5_witness :
    send_file_to_server "https://basinwx.com" "missing.json" "map-obs" "key64"
        (initWorld [] []) = (.error .fileNotFoundError, initWorld [] []) ∧
    robust_upload "https://basinwx.com" "missing.json" "map-obs" "key64"
        (initWorld [] []) = (.error .fileNotFoundError, initWorld [] []) ∧
    (send_file_to_server "https://basinwx.com" "missing.json" "map-obs" ""
        (initWorld [("missing.json", [7])] [.status 200 "ok"])).2.requests.map
        Request.headers = [[("x-api-key", "")]] := by
  obtain ⟨a, b, c⟩ := C5_amended_missing_file_raises_before_network "https://basinwx.com"
    "missing.json" "map-obs" "key64" (initWorld [] []) (by decide)
  exact ⟨a, b, c [("missing.json", [7])] [7] [.status 200 "ok"] (by decide)⟩

/-- Claim C6: `send_file_to_server` returns normally for every HTTP response
status — it raises nothing on a non-2xx response and only prints the outcome
— and consequently `robust_upload` returns `True` on its first attempt
whenever no `requests.RequestException` is raised, even when the server
answers with a 4xx or 5xx status. -/
theorem C6_send_returns_normally_for_every_status
    (server fpath ftype key text : String) (bytes : List Nat)
    (fs : List (String × List Nat)) (code : Nat) (rest : List TResp)
    (hfs : fs.find? (fun e => e.1 == fpath) = some (fpath, bytes)) :
    let w0 := initWorld fs (.status code text :: rest)
    (send_file_to_server server fpath ftype key w0).1 = .ok code ∧
    (send_file_to_server server fpath ftype key w0).2.prints =
      (if code = 200 then [PrintEvent.uploaded (os_path_basename fpath)]
       else [PrintEvent.uploadFailed text]) ∧
    (robust_upload server fpath ftype key w0).1 = .ok (some true) ∧
    (robust_upload server fpath ftype key w0).2.requests.length = 1 := by
  by_cases h : code = 200 <;>
    simp [robust_upload, show List.range 3 = [0, 1, 2] from rfl,
      robust_upload_go, send_file_to_server, hfs, initWorld, h]

/-- Claim C6 witness: the statement at a concrete 503 response. -/
theorem C6_witness :
    let w0 := initWorld [("data/obs.json", [7, 8])] (.status 503 "unavailable" :: [])
    (send_file_to_server "https://basinwx.com" "data/obs.json" "map-obs" "key64" w0).1
        = .ok 503 ∧
    (send_file_to_server "https://basinwx.com" "data/obs.json" "map-obs" "key64" w0).2.prints =
      (if 503 = 200 then [PrintEvent.uploaded (os_path_basename "data/obs.json")]
       else [PrintEvent.uploadFailed "unavailable"]) ∧
    (robust_upload "https://basinwx.com" "data/obs.json" "map-obs" "key64" w0).1
        = .ok (some true) ∧
    (robust_upload "https://basinwx.com" "data/obs.json" "map-obs" "key64" w0).2.requests.length
        = 1 :=
  C6_send_returns_normally_for_every_status "https://basinwx.com" "data/obs.json" "map-obs"
    "key64" "unavailable" [7, 8] [("data/obs.json", [7, 8])] 503 [] (by decide)

/-- Claim C9 counterexample: the `content_types` dict has no `.jpeg` key, so a
`.jpeg` file is content-typed `application/octet-stream`, not `image/jpeg`. -/
theorem C9_counterexample :
    upload_content_type "chart.jpeg" = "application/octet-stream" ∧
    upload_content_type "chart.jpeg" ≠ "image/jpeg" ∧
    os_path_splitext_ext "chart.jpeg" = ".jpeg" := by
  refine ⟨rfl, ?_, rfl⟩
  decide

/-- Claim C9 (amended): the multipart content type is determined solely by the
file extension: `.json`, `.md`, `.pdf`, `.png`, `.jpg` map to their MIME
types, and every other extension — including `.jpeg` — maps to
`application/octet-stream`. -/
theorem C9_amended_content_type_table (fpath : String) :
    upload_content_type fpath =
      (if os_path_splitext_ext fpath = ".json" then "application/json"
       else if os_path_splitext_ext fpath = ".md" then "text/markdown"
       else if os_path_splitext_ext fpath = ".pdf" then "application/pdf"
       else if os_path_splitext_ext fpath = ".png" then "image/png"
       else if os_path_splitext_ext fpath = ".jpg" then "image/jpeg"
       else "application/octet-stream") := by
  unfold upload_content_type
  exact dict_get_content_types (os_path_splitext_ext fpath)

/-- Claim C10 counterexample: the issued request carries only the `x-api-key`
header; `send_file_to_server` has no `client_hostname` parameter and never
sets `x-client-hostname`. -/
theorem C10_counterexample :
    ((send_file_to_server "https://basinwx.com" "data/obs.json" "map-obs" "key64"
        (initWorld [("data/obs.json", [7])] [.status 200 "ok"])).2.requests.map
      (fun r => r.headers.map Prod.fst)) = [["x-api-key"]] ∧
    "x-client-hostname" ∉ (["x-api-key"] : List String) :=
  ⟨rfl, by decide⟩

/-- Claim C10 (amended): for every call on an existing file, exactly one
request is appended: a POST to `{server_address}/api/data/upload/{file_type}`
(braces denoting interpolation) whose multipart body carries the file bytes
under the fixed field name `file` with the file's original basename and the
extension-derived content type, with timeout 60 and headers consisting
exactly of `x-api-key` set to the provided key; there is no
`client_hostname` parameter and no `x-client-hostname` header is ever set. -/
theorem C10_amended_request_shape (server fpath ftype key : String) (bytes : List Nat)
    (w : World)
    (hfs : w.fs.find? (fun e => e.1 == fpath) = some (fpath, bytes)) :
    (send_file_to_server server fpath ftype key w).2.requests =
      w.requests ++
        [{ method := "POST", url := server ++ "/api/data/upload/" ++ ftype,
           fieldName := "file", fileName := os_path_basename fpath, fileBytes := bytes,
           contentType := upload_content_type fpath,
           headers := [("x-api-key", key)], timeout := 60 }] ∧
    "x-client-hostname" ∉ ([("x-api-key", key)] : List (String × String)).map Prod.fst := by
  constructor
  · rcases hs : w.script with _ | ⟨r, rest⟩
    · simp [send_file_to_server, hfs, hs]
    · rcases r with _ | ⟨code, text⟩
      · simp [send_file_to_server, hfs, hs]
      · by_cases h : code = 200 <;> simp [send_file_to_server, hfs, hs, h]
  · simp

/-- Claim C10 witness: the amended statement at a concrete call. -/
theorem C10_witness :
    (send_file_to_server "https://basinwx.com" "data/obs.json" "map-obs" "key64"
        (initWorld [("data/obs.json", [7])] [.status 200 "ok"])).2.requests =
      (initWorld [("data/obs.json", [7])] [.status 200 "ok"]).requests ++
        [{ method := "POST", url := "https://basinwx.com" ++ "/api/data/upload/" ++ "map-obs",
           fieldName := "file", fileName := os_path_basename "data/obs.json",
           fileBytes := [7], contentType := upload_content_type "data/obs.json",
           headers := [("x-api-key", "key64")], timeout := 60 }] ∧
    "x-client-hostname" ∉
      ([("x-api-key", "key64")] : List (String × String)).map Prod.fst :=
  C10_amended_request_shape "https://basinwx.com" "data/obs.json" "map-obs" "key64" [7]
    (initWorld [("data/obs.json", [7])] [.status 200 "ok"]) (by decide)

/-! ## Round-trip lemmas for the JSON serializer and parser -/

theorem skipWs_cons_of_not (c : Char) (cs : List Char) (h : isWsChar c = false) :
    skipWs (c :: cs) = c :: cs := by
  simp [skipWs, List.dropWhile_cons, h]

theorem skipWs_space (cs : List Char) : skipWs (' ' :: cs) = skipWs cs := rfl

theorem skipWs_quote (cs : List Char) : skipWs ('"' :: cs) = '"' :: cs := rfl

theorem isDigit_not_ws (c : Char) (h : c.isDigit = true) : isWsChar c = false := by
  by_contra hne
  have hw : isWsChar c = true := by
    cases hh : isWsChar c
    · exact absurd hh hne
    · rfl
  rcases (by simpa [isWsChar] using hw) with ((h1 | h1) | h1) | h1 <;>
    subst h1 <;> exact absurd h (by decide)

theorem digit_char_facts : ∀ d, d < 10 →
    charDigitVal (Nat.digitChar d) = d ∧ (Nat.digitChar d).isDigit = true := by decide

theorem hexCharVal_hexDigitChar : ∀ d, d < 16 → hexCharVal (hexDigitChar d) = some d := by
  decide

theorem takeWhile_append_stop (p : Char → Bool) (xs ys : List Char)
    (hall : ∀ x ∈ xs, p x = true) (hy : stopsAt p ys) :
    (xs ++ ys).takeWhile p = xs ∧ (xs ++ ys).dropWhile p = ys := by
  induction xs with
  | nil =>
    simp only [List.nil_append]
    cases ys with
    | nil => simp [List.takeWhile, List.dropWhile]
    | cons y ys' =>
      have hy' : p y = false := hy
      simp [List.takeWhile_cons, List.dropWhile_cons, hy']
  | cons a as ih =>
    have ha : p a = true := hall a (by simp)
    have ih' := ih (fun x hx => hall x (by simp [hx]))
    simp [List.takeWhile_cons, List.dropWhile_cons, ha, ih'.1, ih'.2]

theorem printNatChars_all_digits (n : Nat) : ∀ c ∈ printNatChars n, c.isDigit = true := by
  unfold printNatChars
  by_cases h : n = 0
  · subst h; simp
  · rw [if_neg h]
    intro c hc
    rw [List.mem_reverse] at hc
    obtain ⟨d, hd, rfl⟩ := List.mem_map.mp hc
    exact (digit_char_facts d (Nat.digits_lt_base (by norm_num) hd)).2

theorem printNatChars_ne_nil (n : Nat) : printNatChars n ≠ [] := by
  unfold printNatChars
  by_cases h : n = 0
  · simp [h]
  · rw [if_neg h]
    simp [Nat.digits_ne_nil_iff_ne_zero, h]

theorem digitsVal_printNatChars (n : Nat) : digitsVal (printNatChars n) = n := by
  by_cases h : n = 0
  · subst h; decide
  · unfold digitsVal printNatChars
    rw [if_neg h, List.map_reverse, List.reverse_reverse, List.map_map]
    have hmap : (Nat.digits 10 n).map (charDigitVal ∘ Nat.digitChar) =
        (Nat.digits 10 n).map id := by
      apply List.map_congr_left
      intro d hd
      exact (digit_char_facts d (Nat.digits_lt_base (by norm_num) hd)).1
    rw [hmap, List.map_id, Nat.ofDigits_digits]

theorem printNatChars_head (n : Nat) :
    ∃ c cs', printNatChars n = c :: cs' ∧ c.isDigit = true := by
  cases h : printNatChars n with
  | nil => exact absurd h (printNatChars_ne_nil n)
  | cons c cs' =>
    refine ⟨c, cs', rfl, printNatChars_all_digits n c ?_⟩
    rw [h]; simp

theorem parseNat_print (n : Nat) (rest : List Char) (hrest : stopsAt Char.isDigit rest) :
    parseNat (printNatChars n ++ rest) = some (n, rest) := by
  obtain ⟨ht, hd⟩ := takeWhile_append_stop Char.isDigit (printNatChars n) rest
    (printNatChars_all_digits n) hrest
  unfold parseNat
  simp only [ht, hd]
  rw [if_neg (by simp [List.isEmpty_iff, printNatChars_ne_nil n])]
  rw [digitsVal_printNatChars]

theorem escapeChar_control (c : Char) (h1 : ¬c = '"') (h2 : ¬c = '\\') (h3 : c.toNat < 32) :
    escapeChar c = '\\' :: 'u' :: toHex4 c.toNat := by
  simp [escapeChar, h1, h2, h3]

theorem escapeChar_plain (c : Char) (h1 : ¬c = '"') (h2 : ¬c = '\\') (h3 : ¬c.toNat < 32) :
    escapeChar c = [c] := by
  simp [escapeChar, h1, h2, h3]

theorem parseStringBody_escape (cs rest : List Char) :
    parseStringBody ((cs.map escapeChar).flatten ++ '"' :: rest) = some (cs, rest) := by
  induction cs with
  | nil =>
    rw [parseStringBody.eq_def]
    simp
  | cons c cs ih =>
    rw [List.map_cons, List.flatten_cons, List.append_assoc]
    by_cases h1 : c = '"'
    · subst h1
      show parseStringBody ('\\' :: '"' :: ((cs.map escapeChar).flatten ++ '"' :: rest)) = _
      rw [parseStringBody.eq_def]
      simp [ih]
    · by_cases h2 : c = '\\'
      · subst h2
        show parseStringBody
          ('\\' :: '\\' :: ((cs.map escapeChar).flatten ++ '"' :: rest)) = _
        rw [parseStringBody.eq_def]
        simp [ih]
      · by_cases h3 : c.toNat < 32
        · rw [escapeChar_control c h1 h2 h3]
          show parseStringBody ('\\' :: 'u' :: hexDigitChar (c.toNat / 4096 % 16) ::
            hexDigitChar (c.toNat / 256 % 16) :: hexDigitChar (c.toNat / 16 % 16) ::
            hexDigitChar (c.toNat % 16) :: ((cs.map escapeChar).flatten ++ '"' :: rest)) = _
          rw [parseStringBody.eq_def]
          have hsum : c.toNat / 4096 % 16 * 4096 + c.toNat / 256 % 16 * 256 +
              c.toNat / 16 % 16 * 16 + c.toNat % 16 = c.toNat := by omega
          simp [hexCharVal_hexDigitChar _ (by omega : c.toNat / 4096 % 16 < 16),
            hexCharVal_hexDigitChar _ (by omega : c.toNat / 256 % 16 < 16),
            hexCharVal_hexDigitChar _ (by omega : c.toNat / 16 % 16 < 16),
            hexCharVal_hexDigitChar _ (by omega : c.toNat % 16 < 16),
            hsum, Char.ofNat_toNat, ih]
        · rw [escapeChar_plain c h1 h2 h3]
          show parseStringBody (c :: ((cs.map escapeChar).flatten ++ '"' :: rest)) = _
          rw [parseStringBody.eq_def]
          simp [h1, h2, ih]

theorem parseVal_space (cs : List Char) : parseVal (' ' :: cs) = parseVal cs := by
  rw [parseVal, parseVal, skipWs_space]

theorem isDigit_ne_chars (c : Char) (h : c.isDigit = true) :
    ¬c = 'n' ∧ ¬c = '"' ∧ ¬c = '-' := by
  refine ⟨?_, ?_, ?_⟩ <;> intro hh <;> subst hh <;> exact absurd h (by decide)

theorem parseVal_dump (v : PyVal) (hv : v ≠ .nan) (rest : List Char)
    (hrest : stopsAt Char.isDigit rest) :
    parseVal (dumpVal v ++ rest) = some (v, rest) := by
  cases v with
  | nan => exact absurd rfl hv
  | null =>
    show parseVal ('n' :: 'u' :: 'l' :: 'l' :: rest) = _
    rw [parseVal]
    rfl
  | str s =>
    show parseVal (('"' :: escapeString s ++ ['"']) ++ rest) = _
    rw [show ('"' :: escapeString s ++ ['"']) ++ rest
        = '"' :: (escapeString s ++ '"' :: rest) by simp]
    rw [parseVal, skipWs_quote]
    simp only [if_neg (by decide : ¬ '"' = 'n'), if_pos rfl]
    rw [show escapeString s = (s.data.map escapeChar).flatten from rfl,
      parseStringBody_escape]
    simp
  | num i =>
    by_cases hneg : i < 0
    · rw [show dumpVal (.num i) = '-' :: printNatChars i.natAbs from by
        simp [dumpVal, printIntChars, hneg]]
      show parseVal ('-' :: (printNatChars i.natAbs ++ rest)) = _
      rw [parseVal, skipWs_cons_of_not '-' _ (by decide)]
      simp only [if_neg (by decide : ¬ '-' = 'n'), if_neg (by decide : ¬ '-' = '"'), if_pos rfl]
      rw [parseNat_print i.natAbs rest hrest]
      simp only [Option.map_some']
      have : -(i.natAbs : Int) = i := by omega
      rw [this]
      simp
    · rw [show dumpVal (.num i) = printNatChars i.natAbs from by
        simp [dumpVal, printIntChars, hneg]]
      obtain ⟨c, cs', hform, hdig⟩ := printNatChars_head i.natAbs
      obtain ⟨hn, hq, hm⟩ := isDigit_ne_chars c hdig
      rw [hform]
      show parseVal (c :: (cs' ++ rest)) = _
      rw [parseVal, skipWs_cons_of_not c _ (isDigit_not_ws c hdig)]
      simp only [if_neg hn, if_neg hq, if_neg hm]
      rw [show c :: (cs' ++ rest) = (c :: cs') ++ rest from rfl, ← hform,
        parseNat_print i.natAbs rest hrest]
      simp only [Option.map_some']
      have : ((i.natAbs : Int)) = i := by omega
      rw [this]

theorem dumpPair_shape (p : String × PyVal) (X : List Char) :
    dumpPair p ++ X = '"' :: ((p.1.data.map escapeChar).flatten ++ '"' ::
      (':' :: ' ' :: (dumpVal p.2 ++ X))) := by
  simp [dumpPair, dumpString, escapeString, List.append_assoc]

theorem parsePairs_space (fuel : Nat) (cs : List Char) :
    parsePairs fuel (' ' :: cs) = parsePairs fuel cs := by
  cases fuel with
  | zero => rfl
  | succ f => rw [parsePairs, parsePairs, skipWs_space]

theorem parsePairs_dump (pairs : Record) :
    ∀ (rest : List Char) (fuel : Nat), pairs ≠ [] →
      (∀ p ∈ pairs, p.2 ≠ PyVal.nan) → pairs.length < fuel →
      parsePairs fuel (joinComma (pairs.map dumpPair) ++ '\x7d' :: rest) =
        some (pairs, rest) := by
  induction pairs with
  | nil => intro rest fuel hne _ _; exact absurd rfl hne
  | cons p ps ih =>
    intro rest fuel _ hnan hfuel
    obtain ⟨f, rfl⟩ : ∃ f, fuel = f + 1 := ⟨fuel - 1, by omega⟩
    have hvnan : p.2 ≠ PyVal.nan := hnan p (by simp)
    cases ps with
    | nil =>
      rw [show joinComma ([p].map dumpPair) = dumpPair p from rfl, dumpPair_shape]
      rw [parsePairs]
      simp [skipWs_quote, parseStringBody_escape,
        skipWs_cons_of_not ':' _ (by decide), skipWs_cons_of_not '\x7d' _ (by decide),
        parseVal_space, parseVal_dump p.2 hvnan, stopsAt]
    | cons q qs =>
      have ihx := ih rest f (by simp) (fun x hx => hnan x (by simp [hx]))
        (by simp at hfuel ⊢; omega)
      rw [show joinComma ((p :: q :: qs).map dumpPair)
          = dumpPair p ++ ',' :: ' ' :: joinComma ((q :: qs).map dumpPair) from rfl]
      rw [List.append_assoc, dumpPair_shape]
      rw [parsePairs]
      simp [skipWs_quote, parseStringBody_escape,
        skipWs_cons_of_not ':' _ (by decide), skipWs_cons_of_not ',' _ (by decide),
        parseVal_space, parseVal_dump p.2 hvnan, stopsAt, parsePairs_space]
      simpa using ihx

theorem parseRecord_space (fuel : Nat) (cs : List Char) :
    parseRecord fuel (' ' :: cs) = parseRecord fuel cs := by
  rw [parseRecord, parseRecord, skipWs_space]

theorem joinComma_dumpPair_head (p : String × PyVal) (ps : List (String × PyVal))
    (X : List Char) :
    ∃ t, joinComma ((p :: ps).map dumpPair) ++ X = '"' :: t := by
  cases ps with
  | nil =>
    refine ⟨(p.1.data.map escapeChar).flatten ++ '"' :: (':' :: ' ' :: (dumpVal p.2 ++ X)), ?_⟩
    rw [show joinComma ([p].map dumpPair) = dumpPair p from rfl, dumpPair_shape]
  | cons q qs =>
    refine ⟨(p.1.data.map escapeChar).flatten ++ '"' :: (':' :: ' ' ::
      (dumpVal p.2 ++ (',' :: ' ' :: joinComma ((q :: qs).map dumpPair) ++ X))), ?_⟩
    rw [show joinComma ((p :: q :: qs).map dumpPair)
        = dumpPair p ++ ',' :: ' ' :: joinComma ((q :: qs).map dumpPair) from rfl]
    rw [List.append_assoc, dumpPair_shape]

theorem parseRecord_dump (r : Record) (rest : List Char) (fuel : Nat)
    (hnan : ∀ p ∈ r, p.2 ≠ PyVal.nan) (hfuel : r.length < fuel) :
    parseRecord fuel (dumpRecord r ++ rest) = some (r, rest) := by
  cases r with
  | nil =>
    show parseRecord fuel ('\x7b' :: '\x7d' :: rest) = _
    rw [parseRecord]
    simp [skipWs_cons_of_not '\x7b' _ (by decide), skipWs_cons_of_not '\x7d' _ (by decide)]
  | cons p ps =>
    rw [show dumpRecord (p :: ps) ++ rest
        = '\x7b' :: (joinComma ((p :: ps).map dumpPair) ++ '\x7d' :: rest) from by
      simp [dumpRecord, List.append_assoc]]
    obtain ⟨t, ht⟩ := joinComma_dumpPair_head p ps ('\x7d' :: rest)
    rw [parseRecord]
    rw [skipWs_cons_of_not '\x7b' _ (by decide)]
    simp only [if_pos rfl, ht, skipWs_quote]
    rw [← ht]
    simpa using parsePairs_dump (p :: ps) rest fuel (by simp) hnan hfuel

theorem parseItems_space (fuel : Nat) (cs : List Char) :
    parseItems fuel (' ' :: cs) = parseItems fuel cs := by
  cases fuel with
  | zero => rfl
  | succ f => rw [parseItems, parseItems, parseRecord_space]

theorem parseItems_dump (rs : List Record) :
    ∀ (rest : List Char) (fuel : Nat), rs ≠ [] →
      (∀ r ∈ rs, ∀ p ∈ r, p.2 ≠ PyVal.nan) → recordsMeasure rs < fuel →
      parseItems fuel (joinComma (rs.map dumpRecord) ++ ']' :: rest) = some (rs, rest) := by
  induction rs with
  | nil => intro rest fuel hne _ _; exact absurd rfl hne
  | cons r rs ih =>
    intro rest fuel _ hnan hfuel
    obtain ⟨f, rfl⟩ : ∃ f, fuel = f + 1 := ⟨fuel - 1, by omega⟩
    have hrf : r.length < f := by
      have : recordsMeasure (r :: rs) = r.length + 1 + recordsMeasure rs := rfl
      omega
    cases rs with
    | nil =>
      rw [show joinComma ([r].map dumpRecord) = dumpRecord r from rfl]
      rw [parseItems]
      rw [parseRecord_dump r (']' :: rest) f (hnan r (by simp)) hrf]
      simp [skipWs_cons_of_not ']' _ (by decide)]
    | cons r2 rs2 =>
      have ihx := ih rest f (by simp) (fun x hx => hnan x (by simp [hx])) (by
        have : recordsMeasure (r :: r2 :: rs2)
            = r.length + 1 + recordsMeasure (r2 :: rs2) := rfl
        omega)
      rw [show joinComma ((r :: r2 :: rs2).map dumpRecord)
          = dumpRecord r ++ ',' :: ' ' :: joinComma ((r2 :: rs2).map dumpRecord) from rfl]
      rw [List.append_assoc]
      rw [parseItems]
      rw [parseRecord_dump r _ f (hnan r (by simp)) hrf]
      simp [skipWs_cons_of_not ',' _ (by decide), parseItems_space]
      simpa using ihx

theorem length_dumpPair_pos (p : String × PyVal) : 1 ≤ (dumpPair p).length := by
  simp [dumpPair, dumpString]

theorem length_joinComma_ge (ls : List (List Char)) (h : ∀ l ∈ ls, 1 ≤ l.length) :
    ls.length ≤ (joinComma ls).length := by
  induction ls with
  | nil => simp [joinComma]
  | cons x xs ih =>
    cases xs with
    | nil => simpa [joinComma] using h x (by simp)
    | cons y ys =>
      have hx := h x (by simp)
      have ihx := ih (fun l hl => h l (by simp [hl]))
      rw [show joinComma (x :: y :: ys) = x ++ ',' :: ' ' :: joinComma (y :: ys) from rfl]
      simp only [List.length_cons, List.length_append] at ihx ⊢
      omega

theorem record_le_dumpRecord (r : Record) : r.length + 1 ≤ (dumpRecord r).length := by
  cases r with
  | nil => simp [dumpRecord, joinComma]
  | cons p ps =>
    have hj := length_joinComma_ge ((p :: ps).map dumpPair) (by
      intro l hl
      obtain ⟨q, _, rfl⟩ := List.mem_map.mp hl
      exact length_dumpPair_pos q)
    simp only [dumpRecord, List.length_cons, List.length_append, List.length_map] at hj ⊢
    omega

theorem recordsMeasure_le (rs : List Record) :
    recordsMeasure rs ≤ (joinComma (rs.map dumpRecord)).length + 1 := by
  induction rs with
  | nil => simp [recordsMeasure, joinComma]
  | cons r rs ih =>
    have hr := record_le_dumpRecord r
    cases rs with
    | nil =>
      rw [show recordsMeasure [r] = r.length + 1 + recordsMeasure [] from rfl]
      rw [show joinComma ([r].map dumpRecord) = dumpRecord r from rfl]
      simp [recordsMeasure]
      omega
    | cons r2 rs2 =>
      rw [show recordsMeasure (r :: r2 :: rs2)
          = r.length + 1 + recordsMeasure (r2 :: rs2) from rfl]
      rw [show joinComma ((r :: r2 :: rs2).map dumpRecord)
          = dumpRecord r ++ ',' :: ' ' :: joinComma ((r2 :: rs2).map dumpRecord) from rfl]
      simp only [List.length_append, List.length_cons] at ih ⊢
      omega

theorem joinComma_dumpRecord_head (r : Record) (rs : List Record) (X : List Char) :
    ∃ t, joinComma ((r :: rs).map dumpRecord) ++ X = '\x7b' :: t := by
  cases rs with
  | nil =>
    refine ⟨joinComma (r.map dumpPair) ++ '\x7d' :: X, ?_⟩
    rw [show joinComma ([r].map dumpRecord) = dumpRecord r from rfl]
    simp [dumpRecord, List.append_assoc]
  | cons r2 rs2 =>
    refine ⟨joinComma (r.map dumpPair) ++ '\x7d' ::
      (',' :: ' ' :: (joinComma ((r2 :: rs2).map dumpRecord) ++ X)), ?_⟩
    rw [show joinComma ((r :: r2 :: rs2).map dumpRecord)
        = dumpRecord r ++ ',' :: ' ' :: joinComma ((r2 :: rs2).map dumpRecord) from rfl]
    simp [dumpRecord, List.append_assoc]

/-- Claim C8: serializing a record list with the `json.dump`-modelled
`write_json` step and parsing the written text back yields a structurally
identical record list, field for field and in order.  The hypothesis
restricts cells to the record domain of the data model (`null`, numeric, or
string): a float-NaN cell would serialize as the invalid literal `NaN`,
which a strict JSON parser rejects. -/
theorem C8_write_json_roundtrip (rs : List Record)
    (hnan : ∀ r ∈ rs, ∀ p ∈ r, p.2 ≠ PyVal.nan) :
    json_loads_records (dumpRecords rs) = some rs := by
  cases rs with
  | nil => decide
  | cons r rs' =>
    obtain ⟨t, ht⟩ := joinComma_dumpRecord_head r rs' [']']
    have hbound : recordsMeasure (r :: rs')
        < (dumpRecordsChars (r :: rs')).length + 1 := by
      have := recordsMeasure_le (r :: rs')
      simp only [dumpRecordsChars, List.length_cons, List.length_append] at this ⊢
      omega
    have hitems := parseItems_dump (r :: rs') [] ((dumpRecordsChars (r :: rs')).length + 1)
      (by simp) hnan hbound
    have hshape : dumpRecordsChars (r :: rs')
        = '[' :: (joinComma ((r :: rs').map dumpRecord) ++ ']' :: []) := by
      simp [dumpRecordsChars]
    unfold json_loads_records dumpRecords
    rw [show (String.mk (dumpRecordsChars (r :: rs'))).data = dumpRecordsChars (r :: rs')
      from rfl]
    rw [hshape]
    rw [ht] at hitems
    simp only [skipWs_cons_of_not '[' _ (by decide), ht,
      skipWs_cons_of_not '\x7b' _ (by decide)]
    rw [if_pos trivial, if_neg (by decide : ¬ '\x7b' = ']')]
    have hfuel : ('[' :: ('\x7b' :: t)).length + 1
        = (dumpRecordsChars (r :: rs')).length + 1 := by
      rw [hshape, ht]
    rw [hfuel, hitems]
    simp [skipWs]

theorem lookupCol_mem_name (df : DataFrame) (n : String) (c : Col)
    (h : lookupCol df n = some c) : c ∈ df.cols ∧ c.name = n := by
  refine ⟨List.mem_of_find?_eq_some h, ?_⟩
  have := List.find?_some h
  simpa using this

/-- Claim C1 (code bug): the code's comment says `Replace NaN with None to
become proper JSON null`, but `df.where(pd.notnull(df), None)` leaves the
float `value` column's NaN in place (pandas standardizes the `None` fill to
the float block's `np.nan`), so the exported record still carries NaN,
`json.dump` (default `allow_nan=True`) writes the invalid non-finite
literal `NaN` instead of `null`, and a strict JSON parser rejects the
written file. -/
theorem C1_nan_survives_to_invalid_json :
    ("value", PyVal.nan) ∈ (to_records (clean_dataframe_for_json dfC1)).getD 0 [] ∧
    dumpVal PyVal.nan = ['N', 'a', 'N'] ∧
    dumpVal PyVal.nan ≠ ['n', 'u', 'l', 'l'] ∧
    export_data dfC1 = dumpRecords (to_records (clean_dataframe_for_json dfC1)) ∧
    json_loads_records (export_data dfC1) = Option.none :=
  ⟨by decide, rfl, by decide, rfl, by decide⟩

theorem selectCols_ok (df : DataFrame) :
    ∀ names : List String, (∀ n ∈ names, (lookupCol df n).isSome) →
      selectCols df names = .ok (names.filterMap (lookupCol df)) := by
  intro names
  induction names with
  | nil => intro _; simp [selectCols]
  | cons n ns ih =>
    intro h
    obtain ⟨c, hc⟩ := Option.isSome_iff_exists.mp (h n (by simp))
    simp [selectCols, hc, ih (fun m hm => h m (by simp [hm])), List.filterMap_cons, Except.map]

theorem selectCols_err (df : DataFrame) :
    ∀ names : List String, (∃ n ∈ names, lookupCol df n = Option.none) →
      ∃ e : SchemaError, selectCols df names = .error e ∧ e.missing ∈ names := by
  intro names
  induction names with
  | nil => rintro ⟨n, hn, _⟩; cases hn
  | cons n ns ih =>
    rintro ⟨m, hm, hnone⟩
    by_cases hn : lookupCol df n = Option.none
    · exact ⟨⟨n⟩, by simp [selectCols, hn], by simp⟩
    · obtain ⟨c, hc⟩ := Option.ne_none_iff_exists'.mp hn
      have hm' : m ∈ ns := by
        rcases List.mem_cons.mp hm with rfl | h2
        · exact absurd hnone hn
        · exact h2
      obtain ⟨e, he, hmem⟩ := ih ⟨m, hm', hnone⟩
      exact ⟨e, by simp [selectCols, hc, he, Except.map], by simp [hmem]⟩

theorem filterMap_lookup_names (df : DataFrame) :
    ∀ names : List String, (∀ n ∈ names, (lookupCol df n).isSome) →
      (names.filterMap (lookupCol df)).map Col.name = names ∧
      ∀ c ∈ names.filterMap (lookupCol df), c ∈ df.cols := by
  intro names
  induction names with
  | nil => intro _; simp
  | cons n ns ih =>
    intro h
    obtain ⟨c, hc⟩ := Option.isSome_iff_exists.mp (h n (by simp))
    obtain ⟨hcmem, hcname⟩ := lookupCol_mem_name df n c hc
    obtain ⟨ih1, ih2⟩ := ih (fun m hm => h m (by simp [hm]))
    constructor
    · simp [List.filterMap_cons, hc, hcname, ih1]
    · intro x hx
      simp only [List.filterMap_cons, hc] at hx
      rcases List.mem_cons.mp hx with rfl | h2
      · exact hcmem
      · exact ih2 x h2

/-- Claim C7: the map-obs pipeline selects exactly the five canonical
columns, in order and with their original cells (hence preserving row
order), discarding all other columns; and whenever a required column is
absent it fails with a `SchemaError` naming a missing canonical column and
produces no output. -/
theorem C7_select_five_columns_or_schema_error (df : DataFrame) :
    ((∀ n ∈ canonical_columns, (lookupCol df n).isSome) →
      df_select df canonical_columns
          = .ok ⟨canonical_columns.filterMap (lookupCol df)⟩ ∧
        (canonical_columns.filterMap (lookupCol df)).map Col.name = canonical_columns ∧
        ∀ c ∈ canonical_columns.filterMap (lookupCol df), c ∈ df.cols) ∧
    ((∃ n ∈ canonical_columns, lookupCol df n = Option.none) →
      ∃ e : SchemaError, map_obs_pipeline df = .error e ∧
        e.missing ∈ canonical_columns) := by
  constructor
  · intro h
    obtain ⟨h1, h2⟩ := filterMap_lookup_names df canonical_columns h
    exact ⟨by simp [df_select, selectCols_ok df canonical_columns h, Except.map], h1, h2⟩
  · intro h
    obtain ⟨e, he, hmem⟩ := selectCols_err df canonical_columns h
    exact ⟨e, by simp [map_obs_pipeline, df_select, he, Except.map], hmem⟩

/-- Claim C7 witness: the selection branch at a concrete frame with the five
canonical columns plus an extra one, and the error branch at a concrete
frame missing `variable`. -/
theorem C7_witness :
    (df_select dfC7ok canonical_columns
        = .ok ⟨canonical_columns.filterMap (lookupCol dfC7ok)⟩ ∧
      (canonical_columns.filterMap (lookupCol dfC7ok)).map Col.name = canonical_columns ∧
      ∀ c ∈ canonical_columns.filterMap (lookupCol dfC7ok), c ∈ dfC7ok.cols) ∧
    (∃ e : SchemaError, map_obs_pipeline dfC7bad = .error e ∧
      e.missing ∈ canonical_columns) :=
  ⟨(C7_select_five_columns_or_schema_error dfC7ok).1 (by decide),
   (C7_select_five_columns_or_schema_error dfC7bad).2 ⟨"variable", by decide, by decide⟩⟩

/-- Claim C8 witness: the round trip at a concrete two-record list. -/
theorem C8_witness : json_loads_records (dumpRecords rsC8) = some rsC8 :=
  C8_write_json_roundtrip rsC8 (by decide)
